import Mathlib

/-!
Verification development for the ndx-fscv NWB extension.

The repository declares three NWB neurodata types for Fast-Scan Cyclic
Voltammetry (`src/spec/create_extension_spec.py`), binds them to Python
classes through the host runtime, and provides mock generators
(`src/pynwb/ndx_fscv/testing/mock.py`) and tests.

The schema declarations and the mock generators are embedded directly from
the source.  The constructors of the three classes and the round-trip
serializer are synthesized by the host runtime from the schema (they are
not present under `src/`); those parts are modelled from the spec and are
marked as such in their doc comments.  Numeric float64 payloads are
modelled exactly as rationals: no claim depends on floating-point
rounding, only on preservation and shape.
-/

namespace NdxFscv

/-! ## Schema data model (embedding of pynwb.spec types as used by the source) -/

/-- An attribute specification (`NWBAttributeSpec`): name, dtype, whether it is
required (the pynwb default is `required=True`), and an optional fixed value
(`value=...` in the source). -/
structure AttributeSpec where
  name : String
  dtype : String
  required : Bool := true
  fixedValue : Option String := none
deriving DecidableEq, Repr

/-- A dataset specification (`NWBDatasetSpec`).  `shape` entries are `none` for
an unconstrained extent (`None` in the source); `dims` are the dimension
names.  `neurodataTypeInc` is the included type for typed datasets such as
the `electrodes` DynamicTableRegion. -/
structure DatasetSpec where
  name : String
  dtype : Option String := none
  shape : Option (List (Option Nat)) := none
  dims : Option (List String) := none
  attributes : List AttributeSpec := []
  neurodataTypeInc : Option String := none
deriving DecidableEq, Repr

/-- A link specification (`NWBLinkSpec`): link name and target neurodata type. -/
structure LinkSpec where
  name : String
  targetType : String
deriving DecidableEq, Repr

/-- A group specification (`NWBGroupSpec`) for a neurodata type definition. -/
structure GroupSpec where
  neurodataTypeDef : String
  neurodataTypeInc : String
  datasets : List DatasetSpec := []
  links : List LinkSpec := []
  attributes : List AttributeSpec := []
deriving DecidableEq, Repr

/-- The namespace builder metadata (`NWBNamespaceBuilder` arguments in `main`). -/
structure NamespaceBuilder where
  name : String
  version : String
  author : List String
  contact : List String
deriving DecidableEq, Repr

/-- Embeds the `ns_builder` constructed in `create_extension_spec.main`. -/
def ns_builder : NamespaceBuilder :=
  { name := "ndx-fscv"
    version := "0.1.0"
    author := ["Ben Dichter", "Szonja Weigl"]
    contact := ["ben.dicther@catalystneuro.com", "szonja.weigl@catalystneuro.com"] }

/-- Embeds the `fscv_response_series` group spec from
`create_extension_spec.py`: a 2-D float64 `data` dataset with a fixed
`unit="amperes"` attribute, an `electrodes` DynamicTableRegion dataset, an
`excitation_series` link, and an optional `current_to_voltage_factor`
attribute. -/
def fscv_response_series : GroupSpec :=
  { neurodataTypeDef := "FSCVResponseSeries"
    neurodataTypeInc := "TimeSeries"
    datasets :=
      [ { name := "data"
          dtype := some "float64"
          shape := some [none, none]
          dims := some ["num_timepoints", "num_electrodes"]
          attributes :=
            [ { name := "unit", dtype := "text", fixedValue := some "amperes" } ] },
        { name := "electrodes"
          neurodataTypeInc := some "DynamicTableRegion" } ]
    links := [ { name := "excitation_series", targetType := "FSCVExcitationSeries" } ]
    attributes :=
      [ { name := "current_to_voltage_factor", dtype := "float64", required := false } ] }

/-- Embeds the `fscv_excitation_series` group spec from
`create_extension_spec.py`: a 1-D float64 `data` dataset with a fixed
`unit="volts"` attribute, and required attributes `scan_frequency`,
`sweep_rate`, `waveform_shape`. -/
def fscv_excitation_series : GroupSpec :=
  { neurodataTypeDef := "FSCVExcitationSeries"
    neurodataTypeInc := "TimeSeries"
    datasets :=
      [ { name := "data"
          dtype := some "float64"
          shape := some [none]
          attributes :=
            [ { name := "unit", dtype := "text", fixedValue := some "volts" } ] } ]
    attributes :=
      [ { name := "scan_frequency", dtype := "float64" },
        { name := "sweep_rate", dtype := "float64" },
        { name := "waveform_shape", dtype := "text" } ] }

/-- Embeds the `fscv_background_subtracted_series` group spec from
`create_extension_spec.py`: a 2-D float64 `data` dataset with a fixed
`unit="amperes"` attribute and a `response_series` link.  It declares no
`electrodes` dataset. -/
def fscv_background_subtracted_series : GroupSpec :=
  { neurodataTypeDef := "FSCVBackgroundSubtractedSeries"
    neurodataTypeInc := "TimeSeries"
    datasets :=
      [ { name := "data"
          dtype := some "float64"
          shape := some [none, none]
          dims := some ["num_timepoints", "num_electrodes"]
          attributes :=
            [ { name := "unit", dtype := "text", fixedValue := some "amperes" } ] } ]
    links := [ { name := "response_series", targetType := "FSCVResponseSeries" } ] }

/-- Embeds `new_data_types` from `create_extension_spec.main` (source order). -/
def new_data_types : List GroupSpec :=
  [fscv_response_series, fscv_excitation_series, fscv_background_subtracted_series]

/-- The artifact produced by one run of the schema-generation entry point:
the namespace metadata together with the ordered type definitions, as
handed to `export_spec`. -/
structure ExportedSpec where
  namespaceInfo : NamespaceBuilder
  types : List GroupSpec
deriving DecidableEq, Repr

/-- Embeds one run of `create_extension_spec.main`.  The run index is unused
because the source builds the artifact from fixed literal declarations with
no input, randomness or environment dependence; `export_spec` then writes it
to the fixed `spec/` output directory. -/
def runSchemaGeneration (_run : Nat) : ExportedSpec :=
  { namespaceInfo := ns_builder, types := new_data_types }

/-! ## Instance data model

In-memory instances of the three neurodata types.  Scalar float64 values and
float64 array payloads are modelled exactly as rationals.  A 2-D numpy array
is modelled with its intrinsic shape, as numpy carries shape independently of
the payload. -/

/-- A 2-D float64 array: intrinsic shape `(rows, cols)` plus the row-major
payload. -/
structure Array2 where
  rows : Nat
  cols : Nat
  flat : List ℚ
deriving DecidableEq, Repr

/-- Embeds `np.random.rand(rows, cols)`: a `rows × cols` array whose entries
come from the random source `rand` (modelled as an explicit entry generator,
since only the shape of the payload is relevant to the claims). -/
def npRandomRand (rand : Nat → Nat → ℚ) (rows cols : Nat) : Array2 :=
  { rows := rows
    cols := cols
    flat := (List.range (rows * cols)).map (fun k => rand (k / cols) (k % cols)) }

/-- Embeds `np.linspace (-1, 1, n)` (exactly, over the rationals): `n` evenly
spaced values from -1 to 1 inclusive. -/
def npLinspace (n : Nat) : List ℚ :=
  if n = 1 then [-1]
  else (List.range n).map (fun i => -1 + 2 * (i : ℚ) / ((n : ℚ) - 1))

/-- A DynamicTableRegion: the row indices it references in the file's
electrodes table, plus its description. -/
structure TableRegion where
  region : List Nat
  description : String
deriving DecidableEq, Repr

/-- The fields of an FSCVExcitationSeries instance. -/
structure ExcitationFields where
  name : String
  description : String
  data : List ℚ
  rate : ℚ
  unit : String
  scan_frequency : ℚ
  sweep_rate : ℚ
  waveform_shape : String
deriving DecidableEq, Repr

/-- The fields of an FSCVResponseSeries instance.  The `excitation_series`
link is carried by target name and resolved against the container (links are
non-owning references resolved by name within the container). -/
structure ResponseFields where
  name : String
  description : String
  data : Array2
  rate : ℚ
  unit : String
  electrodes : TableRegion
  excitationName : String
  current_to_voltage_factor : Option ℚ
deriving DecidableEq, Repr

/-- The fields of an FSCVBackgroundSubtractedSeries instance; the
`response_series` link is carried by target name. -/
structure BkgFields where
  name : String
  description : String
  data : Array2
  rate : ℚ
  unit : String
  responseName : String
deriving DecidableEq, Repr

/-- An instance attached to a container: its object identity (`objId`, the
stand-in for Python object identity, allocated by the container) plus its
fields. -/
structure Instance (α : Type) where
  objId : Nat
  fields : α
deriving DecidableEq, Repr

/-- An NWB file (container): the electrodes table (only its row count
matters here), the stimulus area, and the acquisition areas for the two
2-D series types.  `nextId` allocates object identities. -/
structure NWBFileModel where
  nextId : Nat
  electrodeRows : Nat
  stimuli : List (Instance ExcitationFields)
  acquisitionsR : List (Instance ResponseFields)
  acquisitionsB : List (Instance BkgFields)
deriving DecidableEq, Repr

/-- Embeds `mock_NWBFile()`: a fresh, empty container. -/
def mock_NWBFile : NWBFileModel :=
  { nextId := 0, electrodeRows := 0, stimuli := [], acquisitionsR := [], acquisitionsB := [] }

/-- Embeds `nwbfile.add_stimulus(series)`: attach with a fresh object id. -/
def NWBFileModel.add_stimulus (f : NWBFileModel) (e : ExcitationFields) : NWBFileModel :=
  { f with nextId := f.nextId + 1, stimuli := f.stimuli ++ [⟨f.nextId, e⟩] }

/-- Embeds `nwbfile.add_acquisition(series)` for a response series. -/
def NWBFileModel.add_acquisitionR (f : NWBFileModel) (r : ResponseFields) : NWBFileModel :=
  { f with nextId := f.nextId + 1, acquisitionsR := f.acquisitionsR ++ [⟨f.nextId, r⟩] }

/-- Embeds `nwbfile.add_acquisition(series)` for a background-subtracted series. -/
def NWBFileModel.add_acquisitionB (f : NWBFileModel) (b : BkgFields) : NWBFileModel :=
  { f with nextId := f.nextId + 1, acquisitionsB := f.acquisitionsB ++ [⟨f.nextId, b⟩] }

/-- Embeds `mock_ElectrodesTable(n_rows=n, nwbfile=f)`: installs a fresh
electrodes table with `n` rows on the file. -/
def mock_ElectrodesTable (n : Nat) (f : NWBFileModel) : NWBFileModel :=
  { f with electrodeRows := n }

/-- Embeds `nwbfile.create_electrode_table_region(region, description)`. -/
def NWBFileModel.create_electrode_table_region (_f : NWBFileModel)
    (region : List Nat) (description : String) : TableRegion :=
  { region := region, description := description }

/-! ## Construction-time validation (Type Binding Layer contract)

The three Python classes are synthesized at load time by the host runtime
from the schema (`get_class` in `src/pynwb/ndx_fscv/__init__.py`); their
constructors are not code under `src/`.  They are modelled from the spec's
contract for the Type Binding Layer and the Data Model rules. -/

/-- The construction-time error taxonomy of the spec. -/
inductive ConstructionError where
  | MissingRequiredField (field : String)
  | FixedValueOverride (field : String)
  | ShapeMismatch
  | TypeMismatch
deriving DecidableEq, Repr

/-- Modelled from the spec: the constructor of the synthesized
`FSCVExcitationSeries` class (absent from `src/`, produced by the host
runtime's dynamic class synthesis from `fscv_excitation_series`).  Each
required attribute must be present (else `MissingRequiredField`); the
fixed-value attribute `unit` cannot be overridden away from `"volts"`
(else `FixedValueOverride`). -/
def constructExcitation (name description : String) (data : List ℚ) (rate : ℚ)
    (unit : Option String) (scan_frequency sweep_rate : Option ℚ)
    (waveform_shape : Option String) :
    Except ConstructionError ExcitationFields :=
  match scan_frequency with
  | none => .error (.MissingRequiredField "scan_frequency")
  | some sf =>
  match sweep_rate with
  | none => .error (.MissingRequiredField "sweep_rate")
  | some sr =>
  match waveform_shape with
  | none => .error (.MissingRequiredField "waveform_shape")
  | some ws =>
  match unit with
  | some u =>
      if u = "volts" then
        .ok ⟨name, description, data, rate, "volts", sf, sr, ws⟩
      else .error (.FixedValueOverride "unit")
  | none => .ok ⟨name, description, data, rate, "volts", sf, sr, ws⟩

/-- Modelled from the spec: the constructor of the synthesized
`FSCVResponseSeries` class (absent from `src/`).  The fixed-value attribute
`unit` cannot be overridden away from `"amperes"`; the number of referenced
electrode rows must agree with `data`'s second dimension, else
`ShapeMismatch`; `current_to_voltage_factor` is optional and absence is
kept as absence (no default is substituted). -/
def constructResponse (name description : String) (data : Array2) (rate : ℚ)
    (unit : Option String) (electrodes : TableRegion) (excitationName : String)
    (current_to_voltage_factor : Option ℚ) :
    Except ConstructionError ResponseFields :=
  match unit with
  | some u =>
      if u = "amperes" then
        if electrodes.region.length = data.cols then
          .ok ⟨name, description, data, rate, "amperes", electrodes,
               excitationName, current_to_voltage_factor⟩
        else .error .ShapeMismatch
      else .error (.FixedValueOverride "unit")
  | none =>
      if electrodes.region.length = data.cols then
        .ok ⟨name, description, data, rate, "amperes", electrodes,
             excitationName, current_to_voltage_factor⟩
      else .error .ShapeMismatch

/-- Modelled from the spec: the constructor of the synthesized
`FSCVBackgroundSubtractedSeries` class (absent from `src/`).  The
fixed-value attribute `unit` cannot be overridden away from `"amperes"`.
The schema declares no `electrodes` dataset for this type, so no
electrode-row reference exists to compare against `data`'s second
dimension. -/
def constructBkg (name description : String) (data : Array2) (rate : ℚ)
    (unit : Option String) (responseName : String) :
    Except ConstructionError BkgFields :=
  match unit with
  | some u =>
      if u = "amperes" then
        .ok ⟨name, description, data, rate, "amperes", responseName⟩
      else .error (.FixedValueOverride "unit")
  | none => .ok ⟨name, description, data, rate, "amperes", responseName⟩

/-! ## Mock generators (embedding of `src/pynwb/ndx_fscv/testing/mock.py`)

`name_generator` is modelled as an explicit `nameGen` function and
`np.random` as an explicit `rand` entry source.  Python's keyword defaults
are written out explicitly at every call site that relied on them. -/

/-- Embeds `mock_FSCVExcitationSeries`.  Source defaults: `description` the
mock description string, `scan_frequency=10.0`, `sweep_rate=400.0`,
`waveform_shape="Triangle"`, `sampling_frequency=2140.0`.  The data is
`np.linspace(-1, 1, 100)`; the series is constructed with `unit="volts"`
and added to the file's stimuli when a file is supplied. -/
def mock_FSCVExcitationSeries (nameGen : String → String) (name : Option String)
    (description : String) (scan_frequency sweep_rate : ℚ) (waveform_shape : String)
    (sampling_frequency : ℚ) (nwbfile : Option NWBFileModel) :
    Except ConstructionError (ExcitationFields × Option NWBFileModel) :=
  let data := npLinspace 100
  match constructExcitation (name.getD (nameGen "fscv_excitation_series")) description
      data sampling_frequency (some "volts")
      (some scan_frequency) (some sweep_rate) (some waveform_shape) with
  | .error err => .error err
  | .ok e =>
    match nwbfile with
    | some f => .ok (e, some (f.add_stimulus e))
    | none => .ok (e, none)

/-- Embeds `mock_FSCVResponseSeries`.  Source defaults:
`number_of_electrodes=4`, `number_of_samples=100`,
`current_to_voltage_factor=0.5`, `sampling_frequency=2140.0`.  A mock file
is created when none is supplied; a fresh electrodes table with
`number_of_electrodes` rows is installed; the region references rows
`0..number_of_electrodes-1`; a mock excitation series (with its source
defaults) is created and attached when none is supplied; the data is
`np.random.rand(number_of_samples, number_of_electrodes)`; the series is
constructed with `unit="amperes"` and always added to the file's
acquisitions. -/
def mock_FSCVResponseSeries (rand : Nat → Nat → ℚ) (nameGen : String → String)
    (name : Option String) (description : String)
    (number_of_electrodes number_of_samples : Nat)
    (current_to_voltage_factor : ℚ) (sampling_frequency : ℚ)
    (excitation_series : Option ExcitationFields) (nwbfile : Option NWBFileModel) :
    Except ConstructionError (ResponseFields × NWBFileModel) :=
  let f0 := nwbfile.getD mock_NWBFile
  let f1 := mock_ElectrodesTable number_of_electrodes f0
  let fscv_electrodes := f1.create_electrode_table_region
      (List.range number_of_electrodes) "FSCV electrodes"
  match (match excitation_series with
    | some e => Except.ok (e, f1)
    | none =>
      match mock_FSCVExcitationSeries nameGen none
          "A mock FSCV excitation series to be used for testing."
          10 400 "Triangle" 2140 (some f1) with
      | .error err => .error err
      | .ok (e, fGen) => Except.ok (e, fGen.getD f1) :
    Except ConstructionError (ExcitationFields × NWBFileModel)) with
  | .error err => .error err
  | .ok (exc, f2) =>
    let data := npRandomRand rand number_of_samples number_of_electrodes
    match constructResponse (name.getD (nameGen "fscv_response_series")) description
        data sampling_frequency (some "amperes") fscv_electrodes exc.name
        (some current_to_voltage_factor) with
    | .error err => .error err
    | .ok r => .ok (r, f2.add_acquisitionR r)

/-- Embeds `mock_FSCVBackgroundSubtractedSeries`.  Source defaults:
`number_of_electrodes=4`, `sampling_frequency=2140.0`.  When no response
series is supplied, one is generated by `mock_FSCVResponseSeries` passing
the caller's `nwbfile` through (Python mutates that file in place when it
is not `None`; when it is `None` the generated file stays local to the
inner call).  The data is `np.random.rand(100, number_of_electrodes)`; the
series is constructed with `unit="amperes"` and added to the file's
acquisitions only when the caller supplied a file. -/
def mock_FSCVBackgroundSubtractedSeries (rand : Nat → Nat → ℚ) (nameGen : String → String)
    (name : Option String) (description : String) (number_of_electrodes : Nat)
    (sampling_frequency : ℚ) (response_series : Option ResponseFields)
    (nwbfile : Option NWBFileModel) :
    Except ConstructionError (BkgFields × Option NWBFileModel) :=
  match (match response_series with
    | some r => Except.ok (r, nwbfile)
    | none =>
      match mock_FSCVResponseSeries rand nameGen none
          "A mock FSCV response series to be used for testing."
          number_of_electrodes 100 (1/2) sampling_frequency none nwbfile with
      | .error err => .error err
      | .ok (r, fAfter) => Except.ok (r, nwbfile.map (fun _ => fAfter)) :
    Except ConstructionError (ResponseFields × Option NWBFileModel)) with
  | .error err => .error err
  | .ok (resp, nwbfile') =>
    let data := npRandomRand rand 100 number_of_electrodes
    match constructBkg (name.getD (nameGen "fscv_background_subtracted_series"))
        description data sampling_frequency (some "amperes") resp.name with
    | .error err => .error err
    | .ok b =>
      match nwbfile' with
      | some f => .ok (b, some (f.add_acquisitionB b))
      | none => .ok (b, none)

/-! ## Round-Trip Serializer (contract modelled from the spec)

The serializer is the host container I/O engine (`NWBHDF5IO`), an external
collaborator whose code is not under `src/`; the spec fixes only its
contract. -/

/-- The persisted form of a container: named groups with all field values;
object identity is not persisted, and links are stored as references
(target names) to be re-resolved on read. -/
structure StoredFile where
  electrodeRows : Nat
  stimuli : List ExcitationFields
  acquisitionsR : List ResponseFields
  acquisitionsB : List BkgFields
deriving DecidableEq, Repr

/-- Read-path failure: a persisted link that does not re-resolve. -/
inductive ReadError where
  | UnresolvedLink
deriving DecidableEq, Repr

/-- Modelled from the spec: the serializer's write path (`NWBHDF5IO`,
external collaborator).  Persists every instance's fields; drops in-memory
object identity; no validation is re-run on write. -/
def writeFile (c : NWBFileModel) : StoredFile :=
  { electrodeRows := c.electrodeRows
    stimuli := c.stimuli.map (·.fields)
    acquisitionsR := c.acquisitionsR.map (·.fields)
    acquisitionsB := c.acquisitionsB.map (·.fields) }

/-- Rebuild instances from persisted fields, allocating fresh object
identities `base, base+1, ...` in order. -/
def reindex {α : Type} (base : Nat) : List α → List (Instance α)
  | [] => []
  | x :: xs => ⟨base, x⟩ :: reindex (base + 1) xs

/-- Whether every persisted link re-resolves: each response series'
`excitation_series` target name names a stimulus, and each
background-subtracted series' `response_series` target name names an
acquired response series. -/
def linksResolve (s : StoredFile) : Bool :=
  s.acquisitionsR.all (fun r => s.stimuli.any (fun e => e.name == r.excitationName)) &&
  s.acquisitionsB.all (fun b => s.acquisitionsR.any (fun r => r.name == b.responseName))

/-- The container rebuilt from a persisted file: every instance is
materialized again with a fresh object identity `base, base+1, ...`. -/
def reload (s : StoredFile) (base : Nat) : NWBFileModel :=
  { nextId := base + s.stimuli.length + s.acquisitionsR.length + s.acquisitionsB.length
    electrodeRows := s.electrodeRows
    stimuli := reindex base s.stimuli
    acquisitionsR := reindex (base + s.stimuli.length) s.acquisitionsR
    acquisitionsB := reindex (base + s.stimuli.length + s.acquisitionsR.length)
      s.acquisitionsB }

/-- Modelled from the spec: the serializer's read path.  Reconstructs every
instance with fresh object identities (reloaded instances are new objects,
never the original in-memory ones) and re-validates that every persisted
link re-resolves, failing with `UnresolvedLink` otherwise. -/
def readFile (s : StoredFile) (base : Nat) : Except ReadError NWBFileModel :=
  if linksResolve s then .ok (reload s base) else .error .UnresolvedLink

/-- Resolve an `excitation_series` link against a container: first stimulus
whose name matches. -/
def resolveExcitation (c : NWBFileModel) (n : String) : Option (Instance ExcitationFields) :=
  c.stimuli.find? (fun e => e.fields.name == n)

/-- Resolve a `response_series` link against a container: first acquired
response series whose name matches. -/
def resolveResponse (c : NWBFileModel) (n : String) : Option (Instance ResponseFields) :=
  c.acquisitionsR.find? (fun r => r.fields.name == n)

/-! ## Concrete fixtures used to evaluate the claims -/

/-- A concrete random source standing in for `np.random`. -/
def halfRand : Nat → Nat → ℚ := fun _ _ => 1/2

/-- A concrete name generator standing in for `name_generator`. -/
def idNameGen : String → String := fun s => s

/-- A concrete excitation-series fields value for the round-trip scenario. -/
def excFixture : ExcitationFields :=
  ⟨"exc", "d", [1, 2], 2140, "volts", 10, 400, "Triangle"⟩

/-- A concrete response-series fields value linked to `excFixture`. -/
def respFixture : ResponseFields :=
  ⟨"resp", "d", ⟨2, 1, [5, 6]⟩, 2140, "amperes", ⟨[0], "FSCV electrodes"⟩, "exc", some (1/2)⟩

/-- A concrete background-subtracted fields value linked to `respFixture`. -/
def bkgFixture : BkgFields :=
  ⟨"bkg", "d", ⟨2, 1, [7, 8]⟩, 2140, "amperes", "resp"⟩

/-- A concrete container holding the three linked fixtures, mirroring the
round-trip test: one excitation series as stimulus, one response series and
one background-subtracted series as acquisitions. -/
def roundtripFixtureFile : NWBFileModel :=
  (((mock_ElectrodesTable 1 mock_NWBFile).add_stimulus excFixture).add_acquisitionR
      respFixture).add_acquisitionB bkgFixture

/-- A concrete response series whose data has 3 columns, used to exercise the
background-subtracted mock with a disagreeing electrode count. -/
def respThreeCols : ResponseFields :=
  ⟨"resp3", "d", npRandomRand halfRand 100 3, 2140, "amperes",
   ⟨[0, 1, 2], "FSCV electrodes"⟩, "exc", some (1/2)⟩

/-! ## Helper lemmas about reloading -/

theorem reindex_map_fields {α : Type} : ∀ (l : List α) (base : Nat),
    (reindex base l).map Instance.fields = l
  | [], _ => rfl
  | x :: xs, base => by
    simp only [reindex, List.map_cons, reindex_map_fields xs (base + 1)]

theorem reindex_find?_fields {α : Type} (p : α → Bool) : ∀ (l : List α) (base : Nat),
    ((reindex base l).find? (fun a => p a.fields)).map Instance.fields = l.find? p
  | [], _ => rfl
  | x :: xs, base => by
    by_cases h : p x = true
    · rw [reindex, List.find?_cons_of_pos _ (by simpa using h), List.find?_cons_of_pos _ h]
      rfl
    · rw [reindex, List.find?_cons_of_neg _ (by simpa using h),
        List.find?_cons_of_neg _ h, reindex_find?_fields p xs (base + 1)]

theorem reindex_find?_objId_ge {α : Type} (q : Instance α → Bool) :
    ∀ (l : List α) (base : Nat) (y : Instance α),
      (reindex base l).find? q = some y → base ≤ y.objId
  | [], _, _, h => by simp [reindex] at h
  | x :: xs, base, y, h => by
    rw [reindex] at h
    by_cases hq : q ⟨base, x⟩ = true
    · rw [List.find?_cons_of_pos _ hq] at h
      cases h
      exact Nat.le_refl _
    · rw [List.find?_cons_of_neg _ hq] at h
      exact Nat.le_of_succ_le (reindex_find?_objId_ge q xs (base + 1) y h)

/-- Inversion: a successful excitation construction forces all required
attributes present, the fixed unit, and the supplied values in the result. -/
theorem constructExcitation_ok (name desc : String) (data : List ℚ) (rate : ℚ)
    (u : Option String) (sf sr : Option ℚ) (ws : Option String) (e : ExcitationFields)
    (h : constructExcitation name desc data rate u sf sr ws = Except.ok e) :
    ∃ sf0 sr0 ws0, sf = some sf0 ∧ sr = some sr0 ∧ ws = some ws0 ∧
      e = ⟨name, desc, data, rate, "volts", sf0, sr0, ws0⟩ := by
  rcases sf with _ | sf0
  · exact absurd h (by simp [constructExcitation])
  rcases sr with _ | sr0
  · exact absurd h (by simp [constructExcitation])
  rcases ws with _ | ws0
  · exact absurd h (by simp [constructExcitation])
  refine ⟨sf0, sr0, ws0, rfl, rfl, rfl, ?_⟩
  rcases u with _ | u0
  · simpa [constructExcitation, eq_comm] using h
  · by_cases hu : u0 = "volts"
    · simpa [constructExcitation, hu, eq_comm] using h
    · exact absurd h (by simp [constructExcitation, hu])

/-- Inversion: a successful response construction forces electrode/data
dimension agreement, the fixed unit, and the supplied values in the result. -/
theorem constructResponse_ok (name desc : String) (data : Array2) (rate : ℚ)
    (u : Option String) (el : TableRegion) (ex : String) (cvf : Option ℚ)
    (r : ResponseFields)
    (h : constructResponse name desc data rate u el ex cvf = Except.ok r) :
    el.region.length = data.cols ∧
      r = ⟨name, desc, data, rate, "amperes", el, ex, cvf⟩ := by
  rcases u with _ | u0
  · by_cases hs : el.region.length = data.cols
    · exact ⟨hs, by simpa [constructResponse, hs, eq_comm] using h⟩
    · exact absurd h (by simp [constructResponse, hs])
  · by_cases hu : u0 = "amperes"
    · by_cases hs : el.region.length = data.cols
      · exact ⟨hs, by simpa [constructResponse, hu, hs, eq_comm] using h⟩
      · exact absurd h (by simp [constructResponse, hu, hs])
    · exact absurd h (by simp [constructResponse, hu])

/-- Inversion: a successful background-subtracted construction forces the
fixed unit and the supplied values in the result. -/
theorem constructBkg_ok (name desc : String) (data : Array2) (rate : ℚ)
    (u : Option String) (rn : String) (b : BkgFields)
    (h : constructBkg name desc data rate u rn = Except.ok b) :
    b = ⟨name, desc, data, rate, "amperes", rn⟩ := by
  rcases u with _ | u0
  · simpa [constructBkg, eq_comm] using h
  · by_cases hu : u0 = "amperes"
    · simpa [constructBkg, hu, eq_comm] using h
    · exact absurd h (by simp [constructBkg, hu])

/-- Equation: excitation construction with the fixed unit and all required
attributes present succeeds with the supplied values. -/
theorem constructExcitation_volts_eq (name desc : String) (data : List ℚ)
    (rate sf sr : ℚ) (ws : String) :
    constructExcitation name desc data rate (some "volts") (some sf) (some sr) (some ws)
      = Except.ok ⟨name, desc, data, rate, "volts", sf, sr, ws⟩ := rfl

/-- Equation: response construction with the fixed unit succeeds under
dimension agreement. -/
theorem constructResponse_amperes_eq (name desc : String) (data : Array2) (rate : ℚ)
    (el : TableRegion) (ex : String) (cvf : Option ℚ)
    (hs : el.region.length = data.cols) :
    constructResponse name desc data rate (some "amperes") el ex cvf
      = Except.ok ⟨name, desc, data, rate, "amperes", el, ex, cvf⟩ := by
  simp [constructResponse, hs]

/-- Equation: background-subtracted construction with the fixed unit
succeeds with the supplied values. -/
theorem constructBkg_amperes_eq (name desc : String) (data : Array2) (rate : ℚ)
    (rn : String) :
    constructBkg name desc data rate (some "amperes") rn
      = Except.ok ⟨name, desc, data, rate, "amperes", rn⟩ := rfl

/-- Equation: the excitation mock always succeeds, produces the 100-sample
linspace ramp with the supplied attributes, and attaches to the file when
one is supplied. -/
theorem mock_FSCVExcitationSeries_eq (nameGen : String → String) (name : Option String)
    (desc : String) (sf sr : ℚ) (ws : String) (rate : ℚ)
    (file : Option NWBFileModel) :
    mock_FSCVExcitationSeries nameGen name desc sf sr ws rate file
      = Except.ok (⟨name.getD (nameGen "fscv_excitation_series"), desc, npLinspace 100,
            rate, "volts", sf, sr, ws⟩,
          file.map (fun f => f.add_stimulus
            ⟨name.getD (nameGen "fscv_excitation_series"), desc, npLinspace 100,
              rate, "volts", sf, sr, ws⟩)) := by
  rcases file with _ | f <;> rfl

/-- Equation: the response mock with a supplied excitation series always
succeeds; the data is `rand(samples, n)`, the region references rows
`0..n-1`, and the series is acquired by the (supplied or fresh) file. -/
theorem mock_FSCVResponseSeries_eq_some (rand : Nat → Nat → ℚ) (nameGen : String → String)
    (name : Option String) (desc : String) (n samples : Nat) (cvf sf : ℚ)
    (e : ExcitationFields) (file : Option NWBFileModel) :
    mock_FSCVResponseSeries rand nameGen name desc n samples cvf sf (some e) file
      = Except.ok (⟨name.getD (nameGen "fscv_response_series"), desc,
            npRandomRand rand samples n, sf, "amperes",
            ⟨List.range n, "FSCV electrodes"⟩, e.name, some cvf⟩,
          (mock_ElectrodesTable n (file.getD mock_NWBFile)).add_acquisitionR
            ⟨name.getD (nameGen "fscv_response_series"), desc,
              npRandomRand rand samples n, sf, "amperes",
              ⟨List.range n, "FSCV electrodes"⟩, e.name, some cvf⟩) := by
  have hs : (⟨List.range n, "FSCV electrodes"⟩ : TableRegion).region.length
      = (npRandomRand rand samples n).cols := by
    simp [npRandomRand]
  simp only [mock_FSCVResponseSeries, NWBFileModel.create_electrode_table_region,
    constructResponse_amperes_eq _ _ _ _ _ _ _ hs]

/-- Equation: the response mock without an excitation series always
succeeds, generating a default mock excitation series, attaching it as a
stimulus of the (supplied or fresh) file, and linking to it. -/
theorem mock_FSCVResponseSeries_eq_none (rand : Nat → Nat → ℚ) (nameGen : String → String)
    (name : Option String) (desc : String) (n samples : Nat) (cvf sf : ℚ)
    (file : Option NWBFileModel) :
    mock_FSCVResponseSeries rand nameGen name desc n samples cvf sf none file
      = Except.ok (⟨name.getD (nameGen "fscv_response_series"), desc,
            npRandomRand rand samples n, sf, "amperes",
            ⟨List.range n, "FSCV electrodes"⟩, nameGen "fscv_excitation_series", some cvf⟩,
          ((mock_ElectrodesTable n (file.getD mock_NWBFile)).add_stimulus
              ⟨nameGen "fscv_excitation_series",
                "A mock FSCV excitation series to be used for testing.",
                npLinspace 100, 2140, "volts", 10, 400, "Triangle"⟩).add_acquisitionR
            ⟨name.getD (nameGen "fscv_response_series"), desc,
              npRandomRand rand samples n, sf, "amperes",
              ⟨List.range n, "FSCV electrodes"⟩, nameGen "fscv_excitation_series",
              some cvf⟩) := by
  have hs : (⟨List.range n, "FSCV electrodes"⟩ : TableRegion).region.length
      = (npRandomRand rand samples n).cols := by
    simp [npRandomRand]
  simp only [mock_FSCVResponseSeries, NWBFileModel.create_electrode_table_region,
    mock_FSCVExcitationSeries_eq, Option.map_some, Option.getD_some,
    constructResponse_amperes_eq _ _ _ _ _ _ _ hs]
  rfl

/-! ## Claims -/

/-- C2: every constructed instance carries the unit fixed by its type
("volts" for FSCVExcitationSeries, "amperes" for FSCVResponseSeries and
FSCVBackgroundSubtractedSeries), and a caller supplying any other unit is
rejected with `FixedValueOverride` rather than honoured. -/
theorem unit_fixed_per_type :
    (∀ name desc data rate u sf sr ws e,
        constructExcitation name desc data rate u sf sr ws = Except.ok e →
          e.unit = "volts") ∧
    (∀ name desc data rate u sf sr ws, u ≠ "volts" →
        constructExcitation name desc data rate (some u) (some sf) (some sr) (some ws)
          = Except.error (.FixedValueOverride "unit")) ∧
    (∀ name desc data rate u el ex cvf r,
        constructResponse name desc data rate u el ex cvf = Except.ok r →
          r.unit = "amperes") ∧
    (∀ name desc data rate u el ex cvf, u ≠ "amperes" →
        constructResponse name desc data rate (some u) el ex cvf
          = Except.error (.FixedValueOverride "unit")) ∧
    (∀ name desc data rate u rn b,
        constructBkg name desc data rate u rn = Except.ok b → b.unit = "amperes") ∧
    (∀ name desc data rate u rn, u ≠ "amperes" →
        constructBkg name desc data rate (some u) rn
          = Except.error (.FixedValueOverride "unit")) := by
  refine ⟨?_, ?_, ?_, ?_, ?_, ?_⟩
  · intro name desc data rate u sf sr ws e h
    obtain ⟨sf0, sr0, ws0, -, -, -, he⟩ :=
      constructExcitation_ok name desc data rate u sf sr ws e h
    rw [he]
  · intro name desc data rate u sf sr ws hu
    simp [constructExcitation, hu]
  · intro name desc data rate u el ex cvf r h
    obtain ⟨-, hr⟩ := constructResponse_ok name desc data rate u el ex cvf r h
    rw [hr]
  · intro name desc data rate u el ex cvf hu
    simp [constructResponse, hu]
  · intro name desc data rate u rn b h
    rw [constructBkg_ok name desc data rate u rn b h]
  · intro name desc data rate u rn hu
    simp [constructBkg, hu]

/-- Witness for C2: instantiating each part at concrete inputs. -/
theorem unit_fixed_per_type_witness :
    (⟨"e", "d", [1], 1, "volts", 10, 400, "Triangle"⟩ : ExcitationFields).unit = "volts" ∧
    constructExcitation "e" "d" [1] 1 (some "amps") (some 10) (some 400) (some "Triangle")
      = Except.error (.FixedValueOverride "unit") ∧
    constructBkg "b" "d" ⟨1, 1, [0]⟩ 1 (some "volts") "r"
      = Except.error (.FixedValueOverride "unit") := by
  refine ⟨?_, ?_, ?_⟩
  · exact unit_fixed_per_type.1 "e" "d" [1] 1 (some "volts") (some 10) (some 400)
      (some "Triangle") _ rfl
  · exact unit_fixed_per_type.2.1 "e" "d" [1] 1 "amps" 10 400 "Triangle" (by decide)
  · exact unit_fixed_per_type.2.2.2.2.2 "b" "d" ⟨1, 1, [0]⟩ 1 "volts" "r" (by decide)

/-- C3: when electrode references are supplied to a construction, a count
disagreeing with `data`'s second dimension fails with `ShapeMismatch`; in
particular 4 electrode references with data of shape (100, 3) fail; on
success `data.shape[1]` equals the electrode-reference count.  The
FSCVBackgroundSubtractedSeries schema declares no `electrodes` dataset, so
no electrode-row references can be supplied to it. -/
theorem electrode_dimension_checked :
    (∀ name desc data rate el ex cvf, el.region.length ≠ data.cols →
        constructResponse name desc data rate (some "amperes") el ex cvf
          = Except.error .ShapeMismatch) ∧
    (∀ rand name desc rate ex cvf,
        constructResponse name desc (npRandomRand rand 100 3) rate (some "amperes")
          ⟨List.range 4, "FSCV electrodes"⟩ ex cvf = Except.error .ShapeMismatch) ∧
    (∀ name desc data rate u el ex cvf r,
        constructResponse name desc data rate u el ex cvf = Except.ok r →
          r.data.cols = r.electrodes.region.length) ∧
    fscv_background_subtracted_series.datasets.map (fun d => d.name) = ["data"] := by
  refine ⟨?_, ?_, ?_, by decide⟩
  · intro name desc data rate el ex cvf hne
    simp [constructResponse, hne]
  · intro rand name desc rate ex cvf
    simp [constructResponse, npRandomRand]
  · intro name desc data rate u el ex cvf r h
    obtain ⟨hs, hr⟩ := constructResponse_ok name desc data rate u el ex cvf r h
    rw [hr]
    exact hs.symm

/-- Witness for C3: instantiating the parts with hypotheses at concrete
inputs. -/
theorem electrode_dimension_checked_witness :
    constructResponse "r" "d" ⟨2, 1, [5, 6]⟩ 1 (some "amperes")
      ⟨[0, 1], "el"⟩ "e" none = Except.error .ShapeMismatch ∧
    (⟨"r", "d", ⟨2, 1, [5, 6]⟩, 1, "amperes", ⟨[0], "el"⟩, "e", none⟩ :
        ResponseFields).data.cols
      = (⟨"r", "d", ⟨2, 1, [5, 6]⟩, 1, "amperes", ⟨[0], "el"⟩, "e", none⟩ :
        ResponseFields).electrodes.region.length := by
  refine ⟨?_, ?_⟩
  · exact electrode_dimension_checked.1 "r" "d" ⟨2, 1, [5, 6]⟩ 1 ⟨[0, 1], "el"⟩ "e" none
      (by decide)
  · exact electrode_dimension_checked.2.2.1 "r" "d" ⟨2, 1, [5, 6]⟩ 1 (some "amperes")
      ⟨[0], "el"⟩ "e" none _ rfl

/-- C4: the schema declares `scan_frequency`, `sweep_rate` and
`waveform_shape` of FSCVExcitationSeries as required; constructing with any
of them absent fails with a missing-required-field error; on success each is
retrievable with the value the caller supplied. -/
theorem excitation_required_attributes :
    fscv_excitation_series.attributes.map (fun a => (a.name, a.required))
      = [("scan_frequency", true), ("sweep_rate", true), ("waveform_shape", true)] ∧
    (∀ name desc data rate u sr ws,
        constructExcitation name desc data rate u none sr ws
          = Except.error (.MissingRequiredField "scan_frequency")) ∧
    (∀ name desc data rate u sf ws,
        constructExcitation name desc data rate u (some sf) none ws
          = Except.error (.MissingRequiredField "sweep_rate")) ∧
    (∀ name desc data rate u sf sr,
        constructExcitation name desc data rate u (some sf) (some sr) none
          = Except.error (.MissingRequiredField "waveform_shape")) ∧
    (∀ name desc data rate sf sr ws e,
        constructExcitation name desc data rate (some "volts")
            (some sf) (some sr) (some ws) = Except.ok e →
          e.scan_frequency = sf ∧ e.sweep_rate = sr ∧ e.waveform_shape = ws) := by
  refine ⟨by decide, ?_, ?_, ?_, ?_⟩
  · intro name desc data rate u sr ws
    simp [constructExcitation]
  · intro name desc data rate u sf ws
    simp [constructExcitation]
  · intro name desc data rate u sf sr
    simp [constructExcitation]
  · intro name desc data rate sf sr ws e h
    obtain ⟨sf0, sr0, ws0, hsf, hsr, hws, he⟩ :=
      constructExcitation_ok name desc data rate (some "volts")
        (some sf) (some sr) (some ws) e h
    cases hsf
    cases hsr
    cases hws
    rw [he]
    exact ⟨rfl, rfl, rfl⟩

/-- Witness for C4: the retrieval part instantiated at the concrete
scenario values. -/
theorem excitation_required_attributes_witness :
    (⟨"e", "d", npLinspace 100, 2140, "volts", 10, 400, "Triangle"⟩ :
        ExcitationFields).scan_frequency = 10 ∧
    (⟨"e", "d", npLinspace 100, 2140, "volts", 10, 400, "Triangle"⟩ :
        ExcitationFields).sweep_rate = 400 ∧
    (⟨"e", "d", npLinspace 100, 2140, "volts", 10, 400, "Triangle"⟩ :
        ExcitationFields).waveform_shape = "Triangle" :=
  excitation_required_attributes.2.2.2.2 "e" "d" (npLinspace 100) 2140 10 400 "Triangle"
    _ rfl

/-- C5: `current_to_voltage_factor` is declared optional by the schema;
constructing without it succeeds (given dimensional agreement) and the
result carries no value for it rather than a default. -/
theorem cvf_optional_absent_stays_absent :
    fscv_response_series.attributes
      = [⟨"current_to_voltage_factor", "float64", false, none⟩] ∧
    (∀ name desc data rate el ex, el.region.length = data.cols →
        constructResponse name desc data rate (some "amperes") el ex none
          = Except.ok ⟨name, desc, data, rate, "amperes", el, ex, none⟩) ∧
    (∀ name desc data rate u el ex r,
        constructResponse name desc data rate u el ex none = Except.ok r →
          r.current_to_voltage_factor = none) := by
  refine ⟨by decide, ?_, ?_⟩
  · intro name desc data rate el ex hs
    simp [constructResponse, hs]
  · intro name desc data rate u el ex r h
    obtain ⟨-, hr⟩ := constructResponse_ok name desc data rate u el ex none r h
    rw [hr]

/-- Witness for C5: constructing a concrete response series without
`current_to_voltage_factor`. -/
theorem cvf_optional_absent_stays_absent_witness :
    constructResponse "r" "d" ⟨2, 1, [5, 6]⟩ 1 (some "amperes") ⟨[0], "el"⟩ "e" none
      = Except.ok ⟨"r", "d", ⟨2, 1, [5, 6]⟩, 1, "amperes", ⟨[0], "el"⟩, "e", none⟩ :=
  cvf_optional_absent_stays_absent.2.1 "r" "d" ⟨2, 1, [5, 6]⟩ 1 ⟨[0], "el"⟩ "e"
    (by decide)

/-- C6: the schema declares the excitation `data` dataset 1-D float64 and
the response and background-subtracted `data` datasets 2-D float64 with
dims [num_timepoints, num_electrodes]; every extent is left unconstrained
(`none`), and constructions of the three types with pairwise different
time-axis lengths (50, 100, 70) all succeed. -/
theorem data_shapes_declared :
    (∃ d ∈ fscv_excitation_series.datasets, d.name = "data" ∧
        d.dtype = some "float64" ∧ d.shape = some [none] ∧ d.dims = none) ∧
    (∃ d ∈ fscv_response_series.datasets, d.name = "data" ∧
        d.dtype = some "float64" ∧ d.shape = some [none, none] ∧
        d.dims = some ["num_timepoints", "num_electrodes"]) ∧
    (∃ d ∈ fscv_background_subtracted_series.datasets, d.name = "data" ∧
        d.dtype = some "float64" ∧ d.shape = some [none, none] ∧
        d.dims = some ["num_timepoints", "num_electrodes"]) ∧
    (∃ e, constructExcitation "e" "d" (npLinspace 50) 2140 (some "volts")
        (some 10) (some 400) (some "Triangle") = Except.ok e ∧ e.data.length = 50) ∧
    (∃ r, constructResponse "r" "d" (npRandomRand halfRand 100 2) 2140 (some "amperes")
        ⟨[0, 1], "el"⟩ "e" none = Except.ok r ∧ r.data.rows = 100) ∧
    (∃ b, constructBkg "b" "d" (npRandomRand halfRand 70 2) 2140 (some "amperes") "r"
        = Except.ok b ∧ b.data.rows = 70) := by
  refine ⟨⟨_, List.mem_cons_self _ _, rfl, rfl, rfl, rfl⟩,
    ⟨_, List.mem_cons_self _ _, rfl, rfl, rfl, rfl⟩,
    ⟨_, List.mem_cons_self _ _, rfl, rfl, rfl, rfl⟩, ?_, ?_, ?_⟩
  · exact ⟨_, rfl, rfl⟩
  · exact ⟨⟨"r", "d", npRandomRand halfRand 100 2, 2140, "amperes", ⟨[0, 1], "el"⟩,
      "e", none⟩, by simp [constructResponse, npRandomRand], rfl⟩
  · exact ⟨_, rfl, rfl⟩

/-- C7: constructing (via the mock used by the tests) an
FSCVExcitationSeries with scan_frequency 10, sweep_rate 400, waveform_shape
"Triangle", rate 2140 and 100 data samples succeeds, with unit "volts" and
all four supplied values retrievable unchanged. -/
theorem concrete_excitation_scenario :
    ∃ e, mock_FSCVExcitationSeries idNameGen (some "test_fscv_excitation_series")
        "A mock FSCV excitation series to be used for testing." 10 400 "Triangle" 2140 none
        = Except.ok (e, none) ∧
      e.unit = "volts" ∧ e.scan_frequency = 10 ∧ e.sweep_rate = 400 ∧
      e.waveform_shape = "Triangle" ∧ e.rate = 2140 ∧ e.data.length = 100 := by
  refine ⟨⟨"test_fscv_excitation_series",
      "A mock FSCV excitation series to be used for testing.",
      npLinspace 100, 2140, "volts", 10, 400, "Triangle"⟩,
    rfl, rfl, rfl, rfl, rfl, rfl, ?_⟩
  decide

/-- C8: the schema-generation entry point is a fixed function of the frozen
type declarations — any two runs produce identical artifacts — and the
artifact carries the name "ndx-fscv", version "0.1.0", the stated author
and contact lists, and the three type definitions. -/
theorem schema_generation_deterministic :
    (∀ n m : Nat, runSchemaGeneration n = runSchemaGeneration m) ∧
    (runSchemaGeneration 0).namespaceInfo.name = "ndx-fscv" ∧
    (runSchemaGeneration 0).namespaceInfo.version = "0.1.0" ∧
    (runSchemaGeneration 0).namespaceInfo.author = ["Ben Dichter", "Szonja Weigl"] ∧
    (runSchemaGeneration 0).namespaceInfo.contact
      = ["ben.dicther@catalystneuro.com", "szonja.weigl@catalystneuro.com"] ∧
    (runSchemaGeneration 0).types.map (fun t => t.neurodataTypeDef)
      = ["FSCVResponseSeries", "FSCVExcitationSeries",
         "FSCVBackgroundSubtractedSeries"] :=
  ⟨fun _ _ => rfl, rfl, rfl, rfl, rfl, by decide⟩

/-- C9: the background-subtracted mock always generates data with exactly
100 rows and `number_of_electrodes` columns, whatever the sampling
frequency and whatever the supplied or generated response series; in
particular a supplied response series with 3 data columns yields a
background-subtracted series with 4 columns linked to it. -/
theorem bkg_mock_fixed_rows :
    (∀ rand nameGen name desc n sf resp file b fOut,
        mock_FSCVBackgroundSubtractedSeries rand nameGen name desc n sf resp file
          = Except.ok (b, fOut) → b.data.rows = 100 ∧ b.data.cols = n) ∧
    (∃ b, mock_FSCVBackgroundSubtractedSeries halfRand idNameGen none "d" 4 2140
        (some respThreeCols) none = Except.ok (b, none) ∧
      b.responseName = respThreeCols.name ∧ b.data.cols = 4 ∧
      respThreeCols.data.cols = 3) := by
  constructor
  · intro rand nameGen name desc n sf resp file b fOut h
    unfold mock_FSCVBackgroundSubtractedSeries at h
    rcases resp with _ | r0
    · rcases hm : mock_FSCVResponseSeries rand nameGen none
          "A mock FSCV response series to be used for testing."
          n 100 (1/2) sf none file with err | ⟨r, fA⟩
      · rw [hm] at h
        simp at h
      · rw [hm] at h
        simp only [constructBkg_amperes_eq] at h
        rcases file with _ | f
        · cases h
          exact ⟨rfl, rfl⟩
        · cases h
          exact ⟨rfl, rfl⟩
    · simp only [constructBkg_amperes_eq] at h
      rcases file with _ | f
      · cases h
        exact ⟨rfl, rfl⟩
      · cases h
        exact ⟨rfl, rfl⟩
  · exact ⟨⟨"fscv_background_subtracted_series", "d", npRandomRand halfRand 100 4, 2140,
      "amperes", respThreeCols.name⟩, rfl, rfl, rfl, rfl⟩

/-- Witness for C9: the shape part instantiated at a concrete successful
call of the background-subtracted mock. -/
theorem bkg_mock_fixed_rows_witness :
    (⟨"fscv_background_subtracted_series", "d", npRandomRand halfRand 100 4, 2140,
        "amperes", respThreeCols.name⟩ : BkgFields).data.rows = 100 ∧
    (⟨"fscv_background_subtracted_series", "d", npRandomRand halfRand 100 4, 2140,
        "amperes", respThreeCols.name⟩ : BkgFields).data.cols = 4 :=
  bkg_mock_fixed_rows.1 halfRand idNameGen none "d" 4 2140 (some respThreeCols) none
    _ none rfl

/-- C10: every response series produced by the response mock references
exactly rows 0..n-1 of a freshly installed n-row electrode table, has data
of shape (number_of_samples, number_of_electrodes), carries an
excitation-series link (to the supplied series, or to a generated mock
one), and is added to the acquisitions of a file (a mock file being created
when none is supplied); moreover the mock always succeeds and always
returns such a file. -/
theorem response_mock_invariants :
    (∀ rand nameGen name desc n samples cvf sf exc file,
        ∃ r fOut, mock_FSCVResponseSeries rand nameGen name desc n samples cvf sf exc file
          = Except.ok (r, fOut)) ∧
    (∀ rand nameGen name desc n samples cvf sf exc file r fOut,
        mock_FSCVResponseSeries rand nameGen name desc n samples cvf sf exc file
          = Except.ok (r, fOut) →
        r.electrodes.region = List.range n ∧
        r.data.rows = samples ∧ r.data.cols = n ∧
        fOut.electrodeRows = n ∧
        r.excitationName = (match exc with
          | some e => e.name
          | none => nameGen "fscv_excitation_series") ∧
        r ∈ fOut.acquisitionsR.map Instance.fields) := by
  constructor
  · intro rand nameGen name desc n samples cvf sf exc file
    rcases exc with _ | e
    · exact ⟨_, _, mock_FSCVResponseSeries_eq_none rand nameGen name desc n samples
        cvf sf file⟩
    · exact ⟨_, _, mock_FSCVResponseSeries_eq_some rand nameGen name desc n samples
        cvf sf e file⟩
  · intro rand nameGen name desc n samples cvf sf exc file r fOut h
    rcases exc with _ | e
    · rw [mock_FSCVResponseSeries_eq_none] at h
      cases h
      refine ⟨rfl, rfl, rfl, rfl, rfl, ?_⟩
      simp [NWBFileModel.add_acquisitionR, NWBFileModel.add_stimulus]
    · rw [mock_FSCVResponseSeries_eq_some] at h
      cases h
      refine ⟨rfl, rfl, rfl, rfl, rfl, ?_⟩
      simp [NWBFileModel.add_acquisitionR]

/-- Witness for C10: the invariants instantiated at a concrete successful
call of the response mock. -/
theorem response_mock_invariants_witness :
    (⟨"fscv_response_series", "d", npRandomRand halfRand 100 4, 2140, "amperes",
        ⟨List.range 4, "FSCV electrodes"⟩, "fscv_excitation_series", some (1/2)⟩ :
      ResponseFields).electrodes.region = List.range 4 := by
  have h := (response_mock_invariants.2 halfRand idNameGen none "d" 4 100 (1/2) 2140
    none none _ _ (mock_FSCVResponseSeries_eq_none halfRand idNameGen none "d" 4 100
      (1/2) 2140 none))
  exact h.1

/-- C1: writing a container holding an excitation series A, a response
series B whose excitation_series link resolves to A, and a
background-subtracted series D whose response_series link resolves to B,
then reading it back, yields a container in which every field of every
instance (hence of A, B and D) is preserved (values, shape, unit, rate,
attributes, links), the electrode table is preserved, B's link resolves to
the reloaded copy of A — a fresh object, not the original in-memory A —
and D's link resolves to the reloaded copy of B. -/
theorem roundtrip_preserves_fields_and_links
    (C : NWBFileModel) (A : Instance ExcitationFields) (B : Instance ResponseFields)
    (D : Instance BkgFields) (base : Nat)
    (hD : D ∈ C.acquisitionsB)
    (hBA : resolveExcitation C B.fields.excitationName = some A)
    (hDB : resolveResponse C D.fields.responseName = some B)
    (hlinks : linksResolve (writeFile C) = true)
    (hAid : A.objId < base) (hBid : B.objId < base) :
    ∃ C', readFile (writeFile C) base = Except.ok C' ∧
      C'.stimuli.map Instance.fields = C.stimuli.map Instance.fields ∧
      C'.acquisitionsR.map Instance.fields = C.acquisitionsR.map Instance.fields ∧
      C'.acquisitionsB.map Instance.fields = C.acquisitionsB.map Instance.fields ∧
      C'.electrodeRows = C.electrodeRows ∧
      (∃ A', resolveExcitation C' B.fields.excitationName = some A' ∧
        A' ∈ C'.stimuli ∧ A'.fields = A.fields ∧ A' ≠ A) ∧
      (∃ B', resolveResponse C' D.fields.responseName = some B' ∧
        B' ∈ C'.acquisitionsR ∧ B'.fields = B.fields ∧ B' ≠ B) ∧
      (∃ D', D' ∈ C'.acquisitionsB ∧ D'.fields = D.fields) := by
  refine ⟨reload (writeFile C) base, ?_, ?_, ?_, ?_, rfl, ?_, ?_, ?_⟩
  · unfold readFile
    rw [if_pos hlinks]
  · exact reindex_map_fields (writeFile C).stimuli base
  · exact reindex_map_fields (writeFile C).acquisitionsR _
  · exact reindex_map_fields (writeFile C).acquisitionsB _
  · -- B's excitation link resolves to the reloaded copy of A
    have h1 := reindex_find?_fields
      (fun e : ExcitationFields => e.name == B.fields.excitationName)
      (C.stimuli.map Instance.fields) base
    rw [List.find?_map] at h1
    rw [show ((fun e : ExcitationFields => e.name == B.fields.excitationName) ∘
        Instance.fields)
      = (fun i : Instance ExcitationFields => i.fields.name == B.fields.excitationName)
      from rfl] at h1
    rw [show C.stimuli.find?
        (fun i : Instance ExcitationFields => i.fields.name == B.fields.excitationName)
      = resolveExcitation C B.fields.excitationName from rfl, hBA] at h1
    obtain ⟨A', hA', hAf⟩ := Option.map_eq_some'.mp h1
    refine ⟨A', hA', List.mem_of_find?_eq_some hA', hAf, ?_⟩
    have hge := reindex_find?_objId_ge _ _ _ _ hA'
    intro heq
    rw [heq] at hge
    omega
  · -- D's response link resolves to the reloaded copy of B
    have h1 := reindex_find?_fields
      (fun r : ResponseFields => r.name == D.fields.responseName)
      (C.acquisitionsR.map Instance.fields) (base + (writeFile C).stimuli.length)
    rw [List.find?_map] at h1
    rw [show ((fun r : ResponseFields => r.name == D.fields.responseName) ∘
        Instance.fields)
      = (fun i : Instance ResponseFields => i.fields.name == D.fields.responseName)
      from rfl] at h1
    rw [show C.acquisitionsR.find?
        (fun i : Instance ResponseFields => i.fields.name == D.fields.responseName)
      = resolveResponse C D.fields.responseName from rfl, hDB] at h1
    obtain ⟨B', hB', hBf⟩ := Option.map_eq_some'.mp h1
    refine ⟨B', hB', List.mem_of_find?_eq_some hB', hBf, ?_⟩
    have hge := reindex_find?_objId_ge _ _ _ _ hB'
    intro heq
    rw [heq] at hge
    omega
  · -- the reloaded container holds a copy of D
    have heq : (reload (writeFile C) base).acquisitionsB.map Instance.fields
        = C.acquisitionsB.map Instance.fields :=
      reindex_map_fields (writeFile C).acquisitionsB _
    have hmem : D.fields ∈ (reload (writeFile C) base).acquisitionsB.map Instance.fields := by
      rw [heq]
      exact List.mem_map_of_mem _ hD
    obtain ⟨D', hD', hDf⟩ := List.mem_map.mp hmem
    exact ⟨D', hD', hDf⟩

/-- Witness for C1: the round-trip theorem applied to the concrete fixture
container holding one instance of each of the three linked types. -/
theorem roundtrip_preserves_fields_and_links_witness :
    ∃ C', readFile (writeFile roundtripFixtureFile) 3 = Except.ok C' ∧
      C'.stimuli.map Instance.fields = roundtripFixtureFile.stimuli.map Instance.fields ∧
      C'.acquisitionsR.map Instance.fields
        = roundtripFixtureFile.acquisitionsR.map Instance.fields ∧
      C'.acquisitionsB.map Instance.fields
        = roundtripFixtureFile.acquisitionsB.map Instance.fields ∧
      C'.electrodeRows = roundtripFixtureFile.electrodeRows ∧
      (∃ A', resolveExcitation C'
          (⟨1, respFixture⟩ : Instance ResponseFields).fields.excitationName = some A' ∧
        A' ∈ C'.stimuli ∧ A'.fields = (⟨0, excFixture⟩ : Instance ExcitationFields).fields ∧
        A' ≠ ⟨0, excFixture⟩) ∧
      (∃ B', resolveResponse C'
          (⟨2, bkgFixture⟩ : Instance BkgFields).fields.responseName = some B' ∧
        B' ∈ C'.acquisitionsR ∧ B'.fields = (⟨1, respFixture⟩ : Instance ResponseFields).fields ∧
        B' ≠ ⟨1, respFixture⟩) ∧
      (∃ D', D' ∈ C'.acquisitionsB ∧
        D'.fields = (⟨2, bkgFixture⟩ : Instance BkgFields).fields) :=
  roundtrip_preserves_fields_and_links roundtripFixtureFile ⟨0, excFixture⟩
    ⟨1, respFixture⟩ ⟨2, bkgFixture⟩ 3 (List.Mem.head []) rfl rfl rfl
    (by decide) (by decide)

end NdxFscv
